import Mathlib

/-!
Shallow embedding of `src/FanAccessory.ts` from homebridge-dreo.

The accessory keeps a mutable cache `fanState = {On, Speed, Swing, MaxSpeed}`,
translates HomeKit set-requests into outbound websocket control messages, and
applies inbound report messages to the cache.  We model the cache as a
structure, each handler as a pure function returning the new cache together
with the list of messages it sends, and the websocket message listener as a
function returning `Option FanState`, where `none` models a thrown exception
(`JSON.parse` on unparseable text, `Object.keys(undefined)` when `reported`
is missing).  JavaScript numbers appearing here are small integers, modelled
as `Int`; `Math.ceil(a / b)` on an integer quotient is the integer ceiling
division `iceil`.
-/

namespace Dreo

/-- Integer ceiling division `⌈a / b⌉` for a positive divisor `b`,
    mirroring JavaScript `Math.ceil(a / b)` on integer operands. -/
def iceil (a b : Int) : Int := (a + b - 1).fdiv b

/-- Cached copy of latest fan states (`this.fanState` in the source). -/
structure FanState where
  On : Bool
  Speed : Int
  Swing : Bool
  MaxSpeed : Int
deriving Repr, DecidableEq

/-- The `params` object of an outbound control message: the source builds one
    of three shapes — `{poweron}`, `{poweron, windlevel}`, `{shakehorizon}`. -/
inductive Params where
  | poweron (v : Bool)
  | powerWind (poweron : Bool) (windlevel : Int)
  | shakehorizon (v : Bool)
deriving Repr, DecidableEq

/-- An outbound websocket control message
    `{devicesn, method: 'control', params, timestamp}`. -/
structure ControlMsg where
  devicesn : String
  method : String
  params : Params
  timestamp : Nat
deriving Repr, DecidableEq

/-- Values appearing under keys of an inbound `reported` object
    (booleans for poweron/shakehorizon, integers for windlevel). -/
inductive RVal where
  | b (v : Bool)
  | i (v : Int)
deriving Repr, DecidableEq

/-- Property lookup `r[k]` on a parsed JSON object, the object being modelled
    as its key/value pairs in `Object.keys` (insertion) order. -/
def getVal (r : List (String × RVal)) (k : String) : Option RVal :=
  (r.find? (fun p => p.1 = k)).map (fun p => p.2)

/-- Read a boolean-valued property (poweron / shakehorizon). -/
def asBool : Option RVal → Bool
  | some (.b v) => v
  | _ => false

/-- Read an integer-valued property (windlevel). -/
def asInt : Option RVal → Int
  | some (.i v) => v
  | _ => 0

/-- An inbound websocket frame: either text that `JSON.parse` rejects, or a
    parsed object with its `devicesn`, `method` and optional `reported`
    fields (`none` when the message has no `reported` mapping). -/
inductive Raw where
  | invalid
  | parsed (devicesn : String) (method : String)
      (reported : Option (List (String × RVal)))
deriving Repr, DecidableEq

/-- The `switch(Object.keys(data.reported)[0])` body of the message
    listener: dispatch on the first key of `reported` and update at most one
    cache field; `windlevel` is applied only when the method is `report`. -/
def applyReported (s : FanState) (method : String)
    (r : List (String × RVal)) : FanState :=
  let k0 := (r.map Prod.fst).head?
  if k0 = some "poweron" then
    { s with On := asBool (getVal r "poweron") }
  else if k0 = some "windlevel" then
    if method = "report" then
      { s with Speed := iceil (asInt (getVal r "windlevel") * 100) s.MaxSpeed }
    else s
  else if k0 = some "shakehorizon" then
    { s with Swing := asBool (getVal r "shakehorizon") }
  else s

/-- The websocket `message` listener registered in the constructor.  `dsn` is
    this accessory's serial (`accessory.context.device.sn`).  Returns `none`
    when the listener throws: on unparseable text, and on a matching-serial
    message with a recognized method but no `reported` object. -/
def handleMessage (dsn : String) (s : FanState) (m : Raw) : Option FanState :=
  match m with
  | .invalid => none
  | .parsed sn method rep =>
    if sn = dsn then
      if method = "control-report" ∨ method = "control-reply" ∨ method = "report" then
        match rep with
        | none => none
        | some r => some (applyReported s method r)
      else some s
    else some s

/-- `handleActiveSet`: send `{poweron}` only when the cached power state
    differs from the requested one; the cache is never written here. -/
def handleActiveSet (sn : String) (now : Nat) (s : FanState) (value : Bool) :
    FanState × List ControlMsg :=
  if s.On ≠ value then
    (s, [{ devicesn := sn, method := "control",
           params := .poweron value, timestamp := now }])
  else
    (s, [])

/-- The bucket-snapping block of `setRotationSpeed` applied to the computed
    level `converted`. -/
def quantize (c : Int) : Int :=
  if 10 < c ∧ c ≤ 30 then 20
  else if 30 < c ∧ c ≤ 50 then 40
  else if 50 < c ∧ c ≤ 70 then 60
  else if 70 < c ∧ c ≤ 90 then 80
  else if 90 < c ∧ c ≤ 100 then 100
  else c

/-- `setRotationSpeed`: scale the requested percent to a device level,
    quantize it, send `{poweron: true, windlevel}` unless the level is
    unchanged or zero, and unconditionally cache the raw requested value. -/
def setRotationSpeed (sn : String) (now : Nat) (s : FanState) (value : Int) :
    FanState × List ControlMsg :=
  let curr := iceil (s.Speed * s.MaxSpeed) 100
  let converted := quantize (iceil (value * s.MaxSpeed) 100)
  let msgs : List ControlMsg :=
    if curr ≠ converted then
      if converted ≠ 0 then
        [{ devicesn := sn, method := "control",
           params := .powerWind true converted, timestamp := now }]
      else []
    else []
  ({ s with Speed := value }, msgs)

/-- `setSwingMode`: always sends `{shakehorizon}`; never writes the cache. -/
def setSwingMode (sn : String) (now : Nat) (s : FanState) (value : Bool) :
    FanState × List ControlMsg :=
  (s, [{ devicesn := sn, method := "control",
         params := .shakehorizon value, timestamp := now }])

/-- Checks that an outbound message does not carry a zero `windlevel`. -/
def levelNonzero (m : ControlMsg) : Bool :=
  match m.params with
  | .powerWind _ l => l ≠ 0
  | _ => true

/-- C1: for every integer percent value, `setRotationSpeed` updates the cached
    `Speed` to exactly the raw requested percent (not the quantized level and
    not a re-derived percent) and changes no other cache field, regardless of
    whether an outbound message was sent, suppressed as redundant, or
    suppressed because the quantized level was zero. -/
theorem setRotationSpeed_caches_raw_percent (sn : String) (now : Nat)
    (s : FanState) (value : Int) :
    (setRotationSpeed sn now s value).1 = { s with Speed := value } := rfl

/-- C2: an inbound message for this serial whose single reported key is
    `windlevel` updates `Speed` to `ceil(level * 100 / maxLevel)` when the
    method is exactly `report`, and leaves the state unchanged when the
    method is `control-report` or `control-reply`. -/
theorem inbound_windlevel_report_only (dsn : String) (s : FanState) (v : Int) :
    handleMessage dsn s (.parsed dsn "report" (some [("windlevel", RVal.i v)]))
      = some { s with Speed := iceil (v * 100) s.MaxSpeed }
    ∧ handleMessage dsn s
        (.parsed dsn "control-report" (some [("windlevel", RVal.i v)])) = some s
    ∧ handleMessage dsn s
        (.parsed dsn "control-reply" (some [("windlevel", RVal.i v)])) = some s := by
  refine ⟨?_, ?_, ?_⟩ <;>
    simp [handleMessage, applyReported, getVal, asInt, List.find?]

/-- C3: with `MaxSpeed = 6` and cached `Speed = 17`, `setRotationSpeed 50`
    computes level `ceil(50*6/100) = 3`, which falls in no quantization
    bucket and passes through; exactly one outbound control message with
    params `{poweron: true, windlevel: 3}` is sent and the cached `Speed`
    becomes `50`. -/
theorem scenario_maxLevel6_set50 (p w : Bool) :
    setRotationSpeed "SN" 7 ⟨p, 17, w, 6⟩ 50
      = (⟨p, 50, w, 6⟩,
         [{ devicesn := "SN", method := "control",
            params := .powerWind true 3, timestamp := 7 }]) := by
  cases p <;> cases w <;> decide

/-- C4: `handleActiveSet` never writes the cache, and when the cached power
    equals the requested boolean it sends no message at all; otherwise it
    sends the single `{poweron}` control message. -/
theorem handleActiveSet_suppresses_and_never_caches (sn : String) (now : Nat)
    (s : FanState) (x : Bool) :
    (handleActiveSet sn now s x).1 = s
    ∧ (handleActiveSet sn now s x).2
        = (if s.On = x then []
           else [{ devicesn := sn, method := "control",
                   params := .poweron x, timestamp := now }]) := by
  unfold handleActiveSet
  by_cases h : s.On = x <;> simp [h]

/-- C5 counterexample: with cached `Swing = true`, `setSwingMode true` still
    sends an outbound message, so the claimed duplicate-write suppression
    (zero outbound messages when `state.oscillating == x`) does not hold. -/
theorem setSwingMode_duplicate_not_suppressed :
    ¬ ((setSwingMode "SN" 0 ⟨false, 0, true, 6⟩ true).2 = []) := by decide

/-- C5 amended: `setSwingMode` never writes the cache, but unlike
    `handleActiveSet` it performs no duplicate-write suppression: it always
    sends exactly one `{shakehorizon}` control message. -/
theorem setSwingMode_always_sends_never_caches (sn : String) (now : Nat)
    (s : FanState) (x : Bool) :
    setSwingMode sn now s x
      = (s, [{ devicesn := sn, method := "control",
               params := .shakehorizon x, timestamp := now }]) := rfl

/-- C6: for every max level, cached speed and requested percent, no message
    sent by `setRotationSpeed` carries `windlevel = 0`: when the quantized
    level is zero the send is suppressed entirely. -/
theorem setRotationSpeed_never_sends_level_zero (sn : String) (now : Nat)
    (s : FanState) (value : Int) :
    ((setRotationSpeed sn now s value).2.all levelNonzero) = true := by
  unfold setRotationSpeed
  by_cases h1 :
      iceil (s.Speed * s.MaxSpeed) 100 ≠ quantize (iceil (value * s.MaxSpeed) 100)
  · by_cases h2 : quantize (iceil (value * s.MaxSpeed) 100) ≠ 0
    · simp [h1, h2, levelNonzero]
    · simp [h1, h2]
  · simp [h1]

/-- C7 counterexample: an inbound `report` with `windlevel = 12` on a device
    with `MaxSpeed = 6` sets `Speed` to `ceil(12*100/6) = 200`; no clamping
    into `[0,100]` is performed. -/
theorem inbound_report_level_not_clamped :
    handleMessage "SN" ⟨false, 50, false, 6⟩
        (.parsed "SN" "report" (some [("windlevel", RVal.i 12)]))
      = some ⟨false, 200, false, 6⟩
    ∧ ¬ ((200 : Int) ≤ 100) := by decide

/-- C7 amended: the code applies no clamp; the updated `Speed` is exactly
    `ceil(level * 100 / maxLevel)`, which lies in `[0,100]` whenever the
    reported level satisfies `0 ≤ level ≤ maxLevel` with `maxLevel > 0`. -/
theorem inbound_report_level_bounded (dsn : String) (s : FanState) (lvl : Int)
    (hm : 0 < s.MaxSpeed) (h0 : 0 ≤ lvl) (h1 : lvl ≤ s.MaxSpeed) :
    handleMessage dsn s (.parsed dsn "report" (some [("windlevel", RVal.i lvl)]))
      = some { s with Speed := iceil (lvl * 100) s.MaxSpeed }
    ∧ 0 ≤ iceil (lvl * 100) s.MaxSpeed
    ∧ iceil (lvl * 100) s.MaxSpeed ≤ 100 := by
  refine ⟨(inbound_windlevel_report_only dsn s lvl).1, ?_, ?_⟩
  · exact Int.fdiv_nonneg (by nlinarith) (Int.le_of_lt hm)
  · rw [iceil, Int.fdiv_eq_ediv _ (Int.le_of_lt hm)]
    have h2 : lvl * 100 + s.MaxSpeed - 1 < 101 * s.MaxSpeed := by nlinarith
    have := (Int.ediv_lt_iff_lt_mul hm).mpr (by linarith : lvl * 100 + s.MaxSpeed - 1 < 101 * s.MaxSpeed)
    omega

/-- C7 witness: a concrete in-range report (`windlevel = 4`, `MaxSpeed = 6`)
    lands on `Speed = 67`, inside `[0,100]`. -/
theorem inbound_report_level_bounded_w :
    handleMessage "A" ⟨false, 0, false, 6⟩
        (.parsed "A" "report" (some [("windlevel", RVal.i 4)]))
      = some { (⟨false, 0, false, 6⟩ : FanState) with Speed := iceil (4 * 100) 6 }
    ∧ 0 ≤ iceil ((4 : Int) * 100) 6
    ∧ iceil ((4 : Int) * 100) 6 ≤ 100 :=
  inbound_report_level_bounded "A" ⟨false, 0, false, 6⟩ 4
    (by decide) (by decide) (by decide)

/-- C8: an inbound parsed message whose serial differs from this device's
    serial is ignored: the state is returned unchanged (and nothing is
    thrown), whatever the method and reported keys are. -/
theorem inbound_other_serial_ignored (dsn sn method : String)
    (rep : Option (List (String × RVal))) (s : FanState) (h : sn ≠ dsn) :
    handleMessage dsn s (.parsed sn method rep) = some s := by
  simp [handleMessage, h]

/-- C8 witness: a concrete message for serial `B` leaves device `A`'s state
    untouched. -/
theorem inbound_other_serial_ignored_w :
    handleMessage "A" ⟨true, 40, true, 6⟩
        (.parsed "B" "report" (some [("poweron", RVal.b false)]))
      = some ⟨true, 40, true, 6⟩ :=
  inbound_other_serial_ignored "A" "B" "report"
    (some [("poweron", RVal.b false)]) ⟨true, 40, true, 6⟩ (by decide)

/-- C9 counterexample: an unparseable frame makes the listener throw
    (`JSON.parse` raises before any guard runs), so the handler does not
    drop malformed frames silently. -/
theorem inbound_unparseable_throws :
    handleMessage "SN" ⟨false, 0, false, 6⟩ Raw.invalid = none := rfl

/-- C9 amended: the listener throws exactly on unparseable payloads and on
    matching-serial messages with a recognized method but no `reported`
    mapping; every other frame — serial mismatch, unrecognized method, or a
    present `reported` object — is handled without throwing. -/
theorem inbound_throw_characterization (dsn : String) (s : FanState) (m : Raw) :
    handleMessage dsn s m = none ↔
      m = Raw.invalid ∨
      ∃ method,
        (method = "control-report" ∨ method = "control-reply" ∨ method = "report")
        ∧ m = Raw.parsed dsn method none := by
  cases m with
  | invalid => simp [handleMessage]
  | parsed sn method rep =>
    simp only [handleMessage]
    by_cases hs : sn = dsn
    · subst hs
      by_cases hmeth :
          method = "control-report" ∨ method = "control-reply" ∨ method = "report"
      · cases rep with
        | none => simp [hmeth]
        | some r => simp [hmeth]
      · push_neg at hmeth
        simp [hmeth.1, hmeth.2.1, hmeth.2.2]
    · simp [hs, Ne.symm hs]

/-- C10: when a matching-serial message's `reported` mapping holds more than
    one key, only the field named by the first key is applied: handling the
    full mapping equals handling a mapping that holds the first pair alone,
    whatever the second and later keys are. -/
theorem inbound_first_key_only (dsn method : String) (s : FanState)
    (k : String) (v : RVal) (rest : List (String × RVal)) :
    handleMessage dsn s (.parsed dsn method (some ((k, v) :: rest)))
      = handleMessage dsn s (.parsed dsn method (some [(k, v)])) := by
  have happ : applyReported s method ((k, v) :: rest)
      = applyReported s method [(k, v)] := by
    by_cases h1 : k = "poweron"
    · subst h1; simp [applyReported, getVal, List.find?]
    · by_cases h2 : k = "windlevel"
      · subst h2; simp [applyReported, getVal, List.find?]
      · by_cases h3 : k = "shakehorizon"
        · subst h3; simp [applyReported, getVal, List.find?]
        · simp [applyReported, h1, h2, h3]
  simp [handleMessage, happ]

end Dreo
